import Mathlib

/-!
# Verification of the AEO On-Page Auditor scoring core (`AEO_Claude.py`)

A shallow embedding of the deterministic scoring and recommendation pipeline:

* `analyze_schema` — scan of `application/ld+json` blocks (malformed blocks
  skipped, last matching block wins for FAQ/HowTo counts);
* `analyze_questions` — question-style heading classifier and counter;
* `calculate_score_breakdown` — fixed rubric mapping signals to component
  scores and a rounded, clamped total;
* `calculate_engine_scores` — per-engine re-weighting of the breakdown,
  normalized to a 0–100 score;
* `generate_prioritized_recommendations` — ordered rule table producing a
  priority-sorted recommendation list.

Python floats are modelled as exact rationals (`ℚ`): every numeric value the
pipeline manipulates is a small decimal (multiples of 0.1 / 0.5 bounded by a
few hundred), represented exactly.  Python's built-in `round` (banker's
rounding, round-half-to-even) is modelled by `pyRound` below; `round(x, 1)`
becomes `pyRound1`.
-/

/-- Python's `round` to the nearest integer, ties to even (banker's rounding). -/
def pyRound (q : ℚ) : ℤ :=
  let f : ℤ := ⌊q⌋
  let r : ℚ := q - (f : ℚ)
  if r < 1/2 then f
  else if 1/2 < r then f + 1
  else if Even f then f else f + 1

/-- Python's `round(x, 1)`: round to one decimal place, ties to even. -/
def pyRound1 (q : ℚ) : ℚ :=
  (pyRound (10 * q) : ℚ) / 10

theorem pyRound_nonneg (q : ℚ) (h : 0 ≤ q) : 0 ≤ pyRound q := by
  have hf : (0 : ℤ) ≤ ⌊q⌋ := Int.floor_nonneg.mpr h
  unfold pyRound
  dsimp only
  split_ifs <;> omega

theorem pyRound_le_int (q : ℚ) (n : ℤ) (h : q ≤ (n : ℚ)) : pyRound q ≤ n := by
  have hfl : ⌊q⌋ ≤ n := by
    calc ⌊q⌋ ≤ ⌊(n : ℚ)⌋ := Int.floor_le_floor h
    _ = n := Int.floor_intCast n
  have hlow : (⌊q⌋ : ℚ) ≤ q := Int.floor_le q
  unfold pyRound
  dsimp only
  split_ifs with h1 h2 h3
  · exact hfl
  · -- here 1/2 < q - ⌊q⌋, so ⌊q⌋ < n strictly
    have : (⌊q⌋ : ℚ) < (n : ℚ) := by linarith
    have : ⌊q⌋ < n := by exact_mod_cast this
    omega
  · exact hfl
  · -- tie case with odd floor: q = ⌊q⌋ + 1/2, so ⌊q⌋ < n strictly
    have hhalf : q - (⌊q⌋ : ℚ) = 1/2 := le_antisymm (not_lt.mp h2) (not_lt.mp h1)
    have : (⌊q⌋ : ℚ) < (n : ℚ) := by linarith
    have : ⌊q⌋ < n := by exact_mod_cast this
    omega

theorem pyRound_intCast (n : ℤ) : pyRound (n : ℚ) = n := by
  unfold pyRound
  norm_num

theorem pyRound1_nonneg (q : ℚ) (h : 0 ≤ q) : 0 ≤ pyRound1 q := by
  unfold pyRound1
  have : (0 : ℤ) ≤ pyRound (10 * q) := pyRound_nonneg _ (by linarith)
  positivity

theorem pyRound1_le_int (q : ℚ) (n : ℤ) (h : q ≤ (n : ℚ)) : pyRound1 q ≤ (n : ℚ) := by
  unfold pyRound1
  have h10 : 10 * q ≤ ((10 * n : ℤ) : ℚ) := by push_cast; linarith
  have := pyRound_le_int (10 * q) (10 * n) h10
  have hcast : (pyRound (10 * q) : ℚ) ≤ ((10 * n : ℤ) : ℚ) := by exact_mod_cast this
  push_cast at hcast
  linarith

theorem pyRound1_intCast (n : ℤ) : pyRound1 (n : ℚ) = (n : ℚ) := by
  unfold pyRound1
  have : (10 : ℚ) * (n : ℚ) = ((10 * n : ℤ) : ℚ) := by push_cast; ring
  rw [this, pyRound_intCast]
  push_cast
  ring

/-! ## Python string primitives

The pipeline only ever applies `lower`, `strip`, `startswith`, `endswith`
and the `in` operator to ASCII text, so they are embedded as structural
recursions over the character list of the string. -/

/-- Python's `str.lower` (ASCII case folding, all the pipeline needs). -/
def pyLower (s : String) : String :=
  String.mk (s.data.map Char.toLower)

/-- The whitespace characters removed by Python's `str.strip()`. -/
def isSpaceChar (c : Char) : Bool :=
  c = ' ' || c = '\t' || c = '\n' || c = '\x0d' || c = '\x0b' || c = '\x0c'

/-- Python's `str.strip()`: drop whitespace from both ends. -/
def pyStrip (s : String) : String :=
  String.mk (((s.data.dropWhile isSpaceChar).reverse.dropWhile isSpaceChar).reverse)

/-- Python's `str.startswith`. -/
def pyStartsWith (s pre : String) : Bool :=
  pre.data.isPrefixOf s.data

/-- Python's `str.endswith`. -/
def pyEndsWith (s suf : String) : Bool :=
  suf.data.reverse.isPrefixOf s.data.reverse

/-- Is `needle` a prefix-at-some-position of `hay`?  Auxiliary recursion for
`strContains`. -/
def containsAux (needle : List Char) : List Char → Bool
  | [] => needle.isEmpty
  | c :: rest => needle.isPrefixOf (c :: rest) || containsAux needle rest

/-- Python's `needle in hay` on strings: substring containment. -/
def strContains (hay needle : String) : Bool :=
  containsAux needle.data hay.data

/-! ## `analyze_schema` (AEO_Claude.py lines 80–123)

A structured-data script block either fails `json.loads` (malformed) or
yields a single JSON object or a list of JSON objects.  Of each object the
scan reads only its `@type` string (`''` when absent) and the lengths of its
`mainEntity` and `step` lists (`0` when absent), so an object is modelled by
exactly those three fields. -/

/-- A JSON object as consumed by `analyze_schema`: `atType` is the value of
`item.get('@type', '')`; `mainEntity` and `step` are the lengths of
`item.get('mainEntity', [])` and `item.get('step', [])`. -/
structure SchemaObj where
  atType : String
  mainEntity : Nat
  step : Nat
deriving Repr, DecidableEq

/-- One `<script type="application/ld+json">` block: `json.loads` either
raises (malformed) or returns a single object or a list of objects. -/
inductive Block where
  | malformed : Block
  | one : SchemaObj → Block
  | many : List SchemaObj → Block
deriving Repr, DecidableEq

structure SchemaData where
  faq_present : Bool
  faq_count : Nat
  howto_present : Bool
  howto_count : Nat
  article_present : Bool
deriving Repr, DecidableEq

/-- The per-object branch of `analyze_schema`: inspect the lower-cased
`@type` and update the accumulated flags/counts (`if`/`elif` chain, so a type
matching several substrings takes only the first branch). -/
def process_obj (st : SchemaData) (item : SchemaObj) : SchemaData :=
  let schema_type := pyLower item.atType
  if strContains schema_type "faqpage" then
    { st with faq_present := true, faq_count := item.mainEntity }
  else if strContains schema_type "howto" then
    { st with howto_present := true, howto_count := item.step }
  else if strContains schema_type "article" then
    { st with article_present := true }
  else st

/-- One iteration of the block loop: a malformed block is skipped
(`except: continue`); a list block processes its items in order. -/
def process_block (st : SchemaData) : Block → SchemaData
  | Block.malformed => st
  | Block.one item => process_obj st item
  | Block.many items => items.foldl process_obj st

/-- `analyze_schema`: fold the block loop from the all-false/zero state. -/
def analyze_schema (schema_scripts : List Block) : SchemaData :=
  schema_scripts.foldl process_block
    { faq_present := false, faq_count := 0
      howto_present := false, howto_count := 0
      article_present := false }

/-! ## `analyze_questions` (AEO_Claude.py lines 125–141) -/

structure QuestionsData where
  total_headings : Nat
  question_headings : Nat
  question_heading_examples : List String
deriving Repr, DecidableEq

/-- The fixed interrogative/auxiliary word list. -/
def question_words : List String :=
  ["what", "why", "how", "when", "where", "who", "which", "can", "is", "are", "do", "does"]

/-- The per-heading test: trim and lower-case the text, then check
starts-with-any-question-word OR ends-with-"?". -/
def is_question (heading : String) : Bool :=
  let text := pyLower (pyStrip heading)
  question_words.any (fun qw => pyStartsWith text qw) || pyEndsWith text "?"

/-- `analyze_questions` over the list of heading texts: each heading passing
`is_question` is appended (trimmed, original casing) exactly once. -/
def analyze_questions (headings : List String) : QuestionsData :=
  let question_headings := (headings.filter is_question).map pyStrip
  { total_headings := headings.length
    question_headings := question_headings.length
    question_heading_examples := question_headings.take 5 }

/-! ## The signal bundle (the `result` dict at AEO_Claude.py lines 479–486)

Only the fields the scoring pipeline reads are carried; counts are `Nat`
(they arise from `len`), the two one-decimal floats are `ℚ`. -/

structure SnippetData where
  first_para_words : Nat
  lists : Nat
  tables : Nat
  short_paragraphs : Nat
  snippet_score : Nat
deriving Repr, DecidableEq

structure StructureData where
  has_tldr : Bool
  has_toc : Bool
  avg_para_length : ℚ
  word_count : Nat
  flesch_reading_ease : ℚ
deriving Repr, DecidableEq

structure EntitiesData where
  entities_found : Nat
  entity_examples : List String
deriving Repr, DecidableEq

structure EeatData where
  has_author_meta : Bool
  has_date : Bool
  has_author_bio : Bool
  has_about_link : Bool
  has_contact_link : Bool
  has_sources : Bool
deriving Repr, DecidableEq

structure SignalBundle where
  schema : SchemaData
  questions : QuestionsData
  snippet : SnippetData
  structure_ : StructureData
  entities : EntitiesData
  eeat : EeatData
deriving Repr, DecidableEq

/-! ## `calculate_score_breakdown` (AEO_Claude.py lines 245–293) -/

structure ComponentScore where
  score : ℚ
  max : ℚ
deriving Repr, DecidableEq

/-- The `breakdown` dict; Python dict insertion order is
schema, questions, snippet, structure, eeat, entities. -/
structure Breakdown where
  schema : ComponentScore
  questions : ComponentScore
  snippet : ComponentScore
  structure_ : ComponentScore
  eeat : ComponentScore
  entities : ComponentScore
deriving Repr, DecidableEq

/-- `breakdown.values()` in dict insertion order. -/
def Breakdown.values (b : Breakdown) : List ComponentScore :=
  [b.schema, b.questions, b.snippet, b.structure_, b.eeat, b.entities]

structure ScoreResult where
  breakdown : Breakdown
  total : ℤ
deriving Repr, DecidableEq

/-- `bool` summands in Python's `sum([...])`: `True` is 1, `False` is 0. -/
def boolVal (b : Bool) : ℚ := if b then 1 else 0

def calculate_score_breakdown (data : SignalBundle) : ScoreResult :=
  let schema_score : ℚ :=
    (if data.schema.faq_present then 10 else 0) +
    (if data.schema.howto_present then 10 else 0) +
    (if data.schema.article_present then 5 else 0)
  let question_score : ℚ := (min (data.questions.question_headings * 4) 20 : Nat)
  let snippet_score : ℚ := pyRound1 ((data.snippet.snippet_score : ℚ) * 0.2)
  let structure_score : ℚ :=
    (if data.structure_.has_tldr then 5 else 0) +
    (if data.structure_.has_toc then 5 else 0) +
    (if data.structure_.flesch_reading_ease ≥ 60 then 5 else 0)
  let eeat_score : ℚ :=
    (boolVal data.eeat.has_author_meta + boolVal data.eeat.has_date +
     boolVal data.eeat.has_author_bio + boolVal data.eeat.has_sources) * 2.5
  let entity_score : ℚ :=
    if data.entities.entities_found > 10 then 10
    else if data.entities.entities_found > 5 then 5
    else 0
  let breakdown : Breakdown :=
    { schema := { score := schema_score, max := 25 }
      questions := { score := question_score, max := 20 }
      snippet := { score := snippet_score, max := 20 }
      structure_ := { score := structure_score, max := 15 }
      eeat := { score := eeat_score, max := 10 }
      entities := { score := entity_score, max := 10 } }
  let total_score : ℚ := (breakdown.values.map ComponentScore.score).sum
  { breakdown := breakdown
    total := min (pyRound total_score) 100 }

/-! ## `calculate_engine_scores` (AEO_Claude.py lines 295–363) -/

/-- One engine's fixed weight table; the dict has exactly the six component
keys, so `config['weights'].get(component, 1.0)` never falls back to the
default. -/
structure EngineWeights where
  schema : ℚ
  questions : ℚ
  snippet : ℚ
  structure_ : ℚ
  eeat : ℚ
  entities : ℚ
deriving Repr, DecidableEq

structure EngineResult where
  score : ℚ
  focus : String
deriving Repr, DecidableEq

/-- The four fixed engine configurations, in dict insertion order. -/
def engines : List (String × EngineWeights × String) :=
  [("ChatGPT",
    { schema := 1.2, questions := 1.1, snippet := 1.0
      structure_ := 1.3, eeat := 0.9, entities := 1.0 },
    "Prioritizes conversational structure and clear formatting"),
   ("Claude",
    { schema := 1.0, questions := 1.2, snippet := 1.0
      structure_ := 1.4, eeat := 1.3, entities := 1.1 },
    "Emphasizes content quality, trustworthiness, and natural language"),
   ("Gemini",
    { schema := 1.3, questions := 1.0, snippet := 1.2
      structure_ := 1.0, eeat := 1.0, entities := 1.2 },
    "Strong preference for structured data and entities"),
   ("Perplexity",
    { schema := 1.1, questions := 1.3, snippet := 1.2
      structure_ := 1.0, eeat := 1.2, entities := 1.0 },
    "Optimized for direct answers and source attribution")]

/-- `weighted_score` accumulated over the breakdown items in insertion
order: each term is `(values['score'] / values['max']) * values['max'] *
weight`, exactly as in the source. -/
def weighted_score (bd : Breakdown) (w : EngineWeights) : ℚ :=
  (bd.schema.score / bd.schema.max) * bd.schema.max * w.schema +
  (bd.questions.score / bd.questions.max) * bd.questions.max * w.questions +
  (bd.snippet.score / bd.snippet.max) * bd.snippet.max * w.snippet +
  (bd.structure_.score / bd.structure_.max) * bd.structure_.max * w.structure_ +
  (bd.eeat.score / bd.eeat.max) * bd.eeat.max * w.eeat +
  (bd.entities.score / bd.entities.max) * bd.entities.max * w.entities

/-- `total_weight`: `values['max'] * weight` summed over the same items. -/
def total_weight (bd : Breakdown) (w : EngineWeights) : ℚ :=
  bd.schema.max * w.schema + bd.questions.max * w.questions +
  bd.snippet.max * w.snippet + bd.structure_.max * w.structure_ +
  bd.eeat.max * w.eeat + bd.entities.max * w.entities

/-- One engine's entry: `normalized_score = weighted_score / total_weight *
100`, reported as `min(round(normalized_score, 1), 100)`. -/
def engine_entry (bd : Breakdown) (w : EngineWeights) (focus : String) : EngineResult :=
  let normalized_score : ℚ := weighted_score bd w / total_weight bd w * 100
  { score := min (pyRound1 normalized_score) 100, focus := focus }

def calculate_engine_scores (data : SignalBundle) : List (String × EngineResult) :=
  let base_breakdown := calculate_score_breakdown data
  engines.map fun cfg => (cfg.1, engine_entry base_breakdown.breakdown cfg.2.1 cfg.2.2)

/-! ## `generate_prioritized_recommendations` (AEO_Claude.py lines 365–453) -/

inductive Priority where
  | HIGH
  | MEDIUM
  | LOW
deriving Repr, DecidableEq

structure Recommendation where
  priority : Priority
  category : String
  action : String
  impact : String
  effort : String
deriving Repr, DecidableEq

/-- `priority_order = {'HIGH': 0, 'MEDIUM': 1, 'LOW': 2}`. -/
def priority_order : Priority → Nat
  | Priority.HIGH => 0
  | Priority.MEDIUM => 1
  | Priority.LOW => 2

/-- The sort key comparison used by `recommendations.sort(key=...)`. -/
def recLE (a b : Recommendation) : Prop :=
  priority_order a.priority ≤ priority_order b.priority

instance : DecidableRel recLE := fun a b =>
  inferInstanceAs (Decidable (priority_order a.priority ≤ priority_order b.priority))

def rec_faq_schema : Recommendation :=
  { priority := Priority.HIGH, category := "Schema Markup"
    action := "Add FAQ schema markup to target 'People Also Ask' boxes"
    impact := "Critical for all answer engines - enables direct answer extraction"
    effort := "Medium" }

def rec_question_headings : Recommendation :=
  { priority := Priority.HIGH, category := "Content Structure"
    action := "Add more question-based headings (What, Why, How)"
    impact := "Improves discoverability in conversational AI searches"
    effort := "Low" }

def rec_first_para : Recommendation :=
  { priority := Priority.HIGH, category := "Snippet Optimization"
    action := "Optimize first paragraph to 40-60 words for featured snippets"
    impact := "Increases chances of being selected as the primary answer"
    effort := "Low" }

def rec_author : Recommendation :=
  { priority := Priority.MEDIUM, category := "E-E-A-T"
    action := "Add author information and credentials"
    impact := "Builds trust signals, especially important for Claude and Perplexity"
    effort := "Low" }

def rec_howto_schema : Recommendation :=
  { priority := Priority.MEDIUM, category := "Schema Markup"
    action := "Add HowTo schema for step-by-step content"
    impact := "Enhances visibility for process-oriented queries"
    effort := "Medium" }

def rec_lists : Recommendation :=
  { priority := Priority.MEDIUM, category := "Content Format"
    action := "Add bulleted or numbered lists for better snippet visibility"
    impact := "Makes content easier to extract and cite"
    effort := "Low" }

def rec_tldr : Recommendation :=
  { priority := Priority.MEDIUM, category := "Content Structure"
    action := "Add a TL;DR or summary section at the beginning"
    impact := "Provides quick answer extraction point"
    effort := "Medium" }

def rec_para_length : Recommendation :=
  { priority := Priority.LOW, category := "Readability"
    action := "Break down paragraphs into shorter chunks (2-3 sentences)"
    impact := "Improves readability scores and scannability"
    effort := "Medium" }

def rec_entities : Recommendation :=
  { priority := Priority.LOW, category := "Semantic SEO"
    action := "Include more relevant entities and topics for semantic richness"
    impact := "Helps with entity recognition, especially for Gemini"
    effort := "High" }

/-- The rule table in authoring order: each predicate contributes its fixed
record or nothing, appended in source order before the final sort. -/
def rule_recs (data : SignalBundle) : List Recommendation :=
  (if !data.schema.faq_present then [rec_faq_schema] else []) ++
  (if data.questions.question_headings < 3 then [rec_question_headings] else []) ++
  (if data.snippet.first_para_words < 40 ∨ data.snippet.first_para_words > 60 then
    [rec_first_para] else []) ++
  (if !data.eeat.has_author_meta then [rec_author] else []) ++
  (if !data.schema.howto_present ∧
      data.questions.question_heading_examples.any
        (fun q => strContains (pyLower q) "how") then
    [rec_howto_schema] else []) ++
  (if data.snippet.lists = 0 then [rec_lists] else []) ++
  (if !data.structure_.has_tldr then [rec_tldr] else []) ++
  (if data.structure_.avg_para_length > 100 then [rec_para_length] else []) ++
  (if data.entities.entities_found < 10 then [rec_entities] else [])

/-- `recommendations.sort(key=lambda x: priority_order[x['priority']])` —
Python's stable sort, modelled by stable insertion sort on the key order. -/
def generate_prioritized_recommendations (data : SignalBundle) : List Recommendation :=
  List.insertionSort recLE (rule_recs data)

/-! ## Helper lemmas: the six component scores and their bounds -/

/-- The `values()` view of the computed breakdown, with every score spelled
out; holds by unfolding `calculate_score_breakdown`. -/
theorem breakdown_values_eq (data : SignalBundle) :
    (calculate_score_breakdown data).breakdown.values =
      [⟨(if data.schema.faq_present then 10 else 0) +
          (if data.schema.howto_present then 10 else 0) +
          (if data.schema.article_present then 5 else 0), 25⟩,
       ⟨(min (data.questions.question_headings * 4) 20 : Nat), 20⟩,
       ⟨pyRound1 ((data.snippet.snippet_score : ℚ) * 0.2), 20⟩,
       ⟨(if data.structure_.has_tldr then 5 else 0) +
          (if data.structure_.has_toc then 5 else 0) +
          (if data.structure_.flesch_reading_ease ≥ 60 then 5 else 0), 15⟩,
       ⟨(boolVal data.eeat.has_author_meta + boolVal data.eeat.has_date +
          boolVal data.eeat.has_author_bio + boolVal data.eeat.has_sources) * 2.5, 10⟩,
       ⟨(if data.entities.entities_found > 10 then 10
          else if data.entities.entities_found > 5 then 5 else 0), 10⟩] := rfl

theorem boolVal_bounds (x : Bool) : 0 ≤ boolVal x ∧ boolVal x ≤ 1 := by
  cases x <;> simp [boolVal]

theorem schema_score_bounds (data : SignalBundle) :
    0 ≤ (calculate_score_breakdown data).breakdown.schema.score ∧
    (calculate_score_breakdown data).breakdown.schema.score ≤ 25 := by
  have h : (calculate_score_breakdown data).breakdown.schema.score =
      (if data.schema.faq_present then (10 : ℚ) else 0) +
      (if data.schema.howto_present then (10 : ℚ) else 0) +
      (if data.schema.article_present then (5 : ℚ) else 0) := rfl
  rw [h]
  split_ifs <;> norm_num

theorem question_score_bounds (data : SignalBundle) :
    0 ≤ (calculate_score_breakdown data).breakdown.questions.score ∧
    (calculate_score_breakdown data).breakdown.questions.score ≤ 20 := by
  have h : (calculate_score_breakdown data).breakdown.questions.score =
      ((min (data.questions.question_headings * 4) 20 : Nat) : ℚ) := rfl
  rw [h]
  constructor
  · positivity
  · exact_mod_cast min_le_right (data.questions.question_headings * 4) 20

theorem snippet_score_bounds (data : SignalBundle)
    (hs : data.snippet.snippet_score ≤ 100) :
    0 ≤ (calculate_score_breakdown data).breakdown.snippet.score ∧
    (calculate_score_breakdown data).breakdown.snippet.score ≤ 20 := by
  have h : (calculate_score_breakdown data).breakdown.snippet.score =
      pyRound1 ((data.snippet.snippet_score : ℚ) * 0.2) := rfl
  have h0 : (0 : ℚ) ≤ (data.snippet.snippet_score : ℚ) * 0.2 := by positivity
  have h100 : (data.snippet.snippet_score : ℚ) ≤ 100 := by exact_mod_cast hs
  have h20 : (data.snippet.snippet_score : ℚ) * 0.2 ≤ ((20 : ℤ) : ℚ) := by
    push_cast
    linarith
  rw [h]
  refine ⟨pyRound1_nonneg _ h0, ?_⟩
  have := pyRound1_le_int _ 20 h20
  exact_mod_cast this

theorem structure_score_bounds (data : SignalBundle) :
    0 ≤ (calculate_score_breakdown data).breakdown.structure_.score ∧
    (calculate_score_breakdown data).breakdown.structure_.score ≤ 15 := by
  have h : (calculate_score_breakdown data).breakdown.structure_.score =
      (if data.structure_.has_tldr then (5 : ℚ) else 0) +
      (if data.structure_.has_toc then (5 : ℚ) else 0) +
      (if data.structure_.flesch_reading_ease ≥ 60 then (5 : ℚ) else 0) := rfl
  rw [h]
  split_ifs <;> norm_num

theorem eeat_score_bounds (data : SignalBundle) :
    0 ≤ (calculate_score_breakdown data).breakdown.eeat.score ∧
    (calculate_score_breakdown data).breakdown.eeat.score ≤ 10 := by
  have h : (calculate_score_breakdown data).breakdown.eeat.score =
      (boolVal data.eeat.has_author_meta + boolVal data.eeat.has_date +
       boolVal data.eeat.has_author_bio + boolVal data.eeat.has_sources) * 2.5 := rfl
  obtain ⟨h1a, h1b⟩ := boolVal_bounds data.eeat.has_author_meta
  obtain ⟨h2a, h2b⟩ := boolVal_bounds data.eeat.has_date
  obtain ⟨h3a, h3b⟩ := boolVal_bounds data.eeat.has_author_bio
  obtain ⟨h4a, h4b⟩ := boolVal_bounds data.eeat.has_sources
  rw [h]
  constructor <;> nlinarith

theorem entity_score_bounds (data : SignalBundle) :
    0 ≤ (calculate_score_breakdown data).breakdown.entities.score ∧
    (calculate_score_breakdown data).breakdown.entities.score ≤ 10 := by
  have h : (calculate_score_breakdown data).breakdown.entities.score =
      (if data.entities.entities_found > 10 then (10 : ℚ)
       else if data.entities.entities_found > 5 then 5 else 0) := rfl
  rw [h]
  split_ifs <;> norm_num

/-- The sum of the six component scores (the `total_score` variable before
rounding and clamping). -/
def sub_scores_sum (data : SignalBundle) : ℚ :=
  ((calculate_score_breakdown data).breakdown.values.map ComponentScore.score).sum

theorem sub_scores_sum_eq (data : SignalBundle) :
    sub_scores_sum data =
      (calculate_score_breakdown data).breakdown.schema.score +
      (calculate_score_breakdown data).breakdown.questions.score +
      (calculate_score_breakdown data).breakdown.snippet.score +
      (calculate_score_breakdown data).breakdown.structure_.score +
      (calculate_score_breakdown data).breakdown.eeat.score +
      (calculate_score_breakdown data).breakdown.entities.score := by
  simp [sub_scores_sum, Breakdown.values]
  ring

theorem sub_scores_sum_bounds (data : SignalBundle)
    (hs : data.snippet.snippet_score ≤ 100) :
    0 ≤ sub_scores_sum data ∧ sub_scores_sum data ≤ 100 := by
  obtain ⟨h1a, h1b⟩ := schema_score_bounds data
  obtain ⟨h2a, h2b⟩ := question_score_bounds data
  obtain ⟨h3a, h3b⟩ := snippet_score_bounds data hs
  obtain ⟨h4a, h4b⟩ := structure_score_bounds data
  obtain ⟨h5a, h5b⟩ := eeat_score_bounds data
  obtain ⟨h6a, h6b⟩ := entity_score_bounds data
  rw [sub_scores_sum_eq]
  constructor <;> linarith

theorem total_eq_min (data : SignalBundle) :
    (calculate_score_breakdown data).total = min (pyRound (sub_scores_sum data)) 100 := rfl

theorem breakdown_score_le_max (data : SignalBundle)
    (hs : data.snippet.snippet_score ≤ 100) :
    ∀ c ∈ (calculate_score_breakdown data).breakdown.values, 0 ≤ c.score ∧ c.score ≤ c.max := by
  intro c hc
  have hvals :
      (calculate_score_breakdown data).breakdown.values =
        [(calculate_score_breakdown data).breakdown.schema,
         (calculate_score_breakdown data).breakdown.questions,
         (calculate_score_breakdown data).breakdown.snippet,
         (calculate_score_breakdown data).breakdown.structure_,
         (calculate_score_breakdown data).breakdown.eeat,
         (calculate_score_breakdown data).breakdown.entities] := rfl
  rw [hvals] at hc
  have hmax_schema : (calculate_score_breakdown data).breakdown.schema.max = 25 := rfl
  have hmax_questions : (calculate_score_breakdown data).breakdown.questions.max = 20 := rfl
  have hmax_snippet : (calculate_score_breakdown data).breakdown.snippet.max = 20 := rfl
  have hmax_structure : (calculate_score_breakdown data).breakdown.structure_.max = 15 := rfl
  have hmax_eeat : (calculate_score_breakdown data).breakdown.eeat.max = 10 := rfl
  have hmax_entities : (calculate_score_breakdown data).breakdown.entities.max = 10 := rfl
  simp only [List.mem_cons, List.not_mem_nil, or_false] at hc
  rcases hc with h | h | h | h | h | h <;> subst h
  · rw [hmax_schema]; exact schema_score_bounds data
  · rw [hmax_questions]; exact question_score_bounds data
  · rw [hmax_snippet]; exact snippet_score_bounds data hs
  · rw [hmax_structure]; exact structure_score_bounds data
  · rw [hmax_eeat]; exact eeat_score_bounds data
  · rw [hmax_entities]; exact entity_score_bounds data

/-- **C1.** For every signal bundle (whose snippet score is within its
documented 0–100 range), each component score of
`calculate_score_breakdown` satisfies `0 ≤ score ≤ max`, the declared maxima
are schema 25, questions 20, snippet 20, structure 15, eeat 10, entities 10,
and the reported total equals the sum of the six component scores rounded to
the nearest integer and clamped to `[0, 100]`. -/
theorem C1_component_bounds_and_total (data : SignalBundle)
    (hs : data.snippet.snippet_score ≤ 100) :
    (∀ c ∈ (calculate_score_breakdown data).breakdown.values,
      0 ≤ c.score ∧ c.score ≤ c.max) ∧
    (calculate_score_breakdown data).breakdown.values.map ComponentScore.max =
      [25, 20, 20, 15, 10, 10] ∧
    (calculate_score_breakdown data).total =
      max (min (pyRound (sub_scores_sum data)) 100) 0 := by
  refine ⟨breakdown_score_le_max data hs, rfl, ?_⟩
  have h0 : 0 ≤ sub_scores_sum data := (sub_scores_sum_bounds data hs).1
  have hr : (0 : ℤ) ≤ pyRound (sub_scores_sum data) := pyRound_nonneg _ h0
  rw [total_eq_min]
  have : (0 : ℤ) ≤ min (pyRound (sub_scores_sum data)) 100 :=
    le_min hr (by norm_num)
  omega

/-- A concrete all-signals-absent bundle: used to instantiate the
hypothesised theorems on a closed input. -/
def zero_bundle : SignalBundle :=
  { schema := { faq_present := false, faq_count := 0
                howto_present := false, howto_count := 0, article_present := false }
    questions := { total_headings := 0, question_headings := 0
                   question_heading_examples := [] }
    snippet := { first_para_words := 0, lists := 0, tables := 0
                 short_paragraphs := 0, snippet_score := 0 }
    structure_ := { has_tldr := false, has_toc := false, avg_para_length := 0
                    word_count := 0, flesch_reading_ease := 0 }
    entities := { entities_found := 0, entity_examples := [] }
    eeat := { has_author_meta := false, has_date := false, has_author_bio := false
              has_about_link := false, has_contact_link := false, has_sources := false } }

/-- Witness for C1 at a concrete bundle. -/
theorem C1_component_bounds_and_total_witness :
    zero_bundle.snippet.snippet_score ≤ 100 ∧
    ((∀ c ∈ (calculate_score_breakdown zero_bundle).breakdown.values,
        0 ≤ c.score ∧ c.score ≤ c.max) ∧
      (calculate_score_breakdown zero_bundle).breakdown.values.map ComponentScore.max =
        [25, 20, 20, 15, 10, 10] ∧
      (calculate_score_breakdown zero_bundle).total =
        max (min (pyRound (sub_scores_sum zero_bundle)) 100) 0) :=
  ⟨by decide, C1_component_bounds_and_total zero_bundle (by decide)⟩

/-! ## Helper lemmas: engine score normalization -/

theorem breakdown_max_pos (data : SignalBundle) :
    ∀ c ∈ (calculate_score_breakdown data).breakdown.values, 0 < c.max := by
  intro c hc
  rw [breakdown_values_eq] at hc
  simp only [List.mem_cons, List.not_mem_nil, or_false] at hc
  rcases hc with h | h | h | h | h | h <;> subst h <;> norm_num

/-- All positive weights, packaged. -/
def posWeights (w : EngineWeights) : Prop :=
  0 < w.schema ∧ 0 < w.questions ∧ 0 < w.snippet ∧
  0 < w.structure_ ∧ 0 < w.eeat ∧ 0 < w.entities

theorem engine_norm_bounds (bd : Breakdown) (w : EngineWeights)
    (hb : ∀ c ∈ bd.values, 0 ≤ c.score ∧ c.score ≤ c.max)
    (hm : ∀ c ∈ bd.values, 0 < c.max) (hw : posWeights w) :
    0 ≤ weighted_score bd w / total_weight bd w * 100 ∧
    weighted_score bd w / total_weight bd w * 100 ≤ 100 := by
  obtain ⟨hw1, hw2, hw3, hw4, hw5, hw6⟩ := hw
  have hb1 := hb bd.schema (by simp [Breakdown.values])
  have hb2 := hb bd.questions (by simp [Breakdown.values])
  have hb3 := hb bd.snippet (by simp [Breakdown.values])
  have hb4 := hb bd.structure_ (by simp [Breakdown.values])
  have hb5 := hb bd.eeat (by simp [Breakdown.values])
  have hb6 := hb bd.entities (by simp [Breakdown.values])
  have hm1 := hm bd.schema (by simp [Breakdown.values])
  have hm2 := hm bd.questions (by simp [Breakdown.values])
  have hm3 := hm bd.snippet (by simp [Breakdown.values])
  have hm4 := hm bd.structure_ (by simp [Breakdown.values])
  have hm5 := hm bd.eeat (by simp [Breakdown.values])
  have hm6 := hm bd.entities (by simp [Breakdown.values])
  have hwe : weighted_score bd w =
      bd.schema.score * w.schema + bd.questions.score * w.questions +
      bd.snippet.score * w.snippet + bd.structure_.score * w.structure_ +
      bd.eeat.score * w.eeat + bd.entities.score * w.entities := by
    unfold weighted_score
    rw [div_mul_cancel₀ _ (ne_of_gt hm1), div_mul_cancel₀ _ (ne_of_gt hm2),
        div_mul_cancel₀ _ (ne_of_gt hm3), div_mul_cancel₀ _ (ne_of_gt hm4),
        div_mul_cancel₀ _ (ne_of_gt hm5), div_mul_cancel₀ _ (ne_of_gt hm6)]
  have htot : 0 < total_weight bd w := by
    unfold total_weight
    have := mul_pos hm1 hw1
    have := mul_pos hm2 hw2
    have := mul_pos hm3 hw3
    have := mul_pos hm4 hw4
    have := mul_pos hm5 hw5
    have := mul_pos hm6 hw6
    linarith
  have hnn : 0 ≤ weighted_score bd w := by
    rw [hwe]
    have := mul_nonneg hb1.1 hw1.le
    have := mul_nonneg hb2.1 hw2.le
    have := mul_nonneg hb3.1 hw3.le
    have := mul_nonneg hb4.1 hw4.le
    have := mul_nonneg hb5.1 hw5.le
    have := mul_nonneg hb6.1 hw6.le
    linarith
  have hle : weighted_score bd w ≤ total_weight bd w := by
    rw [hwe]
    unfold total_weight
    have := mul_le_mul_of_nonneg_right hb1.2 hw1.le
    have := mul_le_mul_of_nonneg_right hb2.2 hw2.le
    have := mul_le_mul_of_nonneg_right hb3.2 hw3.le
    have := mul_le_mul_of_nonneg_right hb4.2 hw4.le
    have := mul_le_mul_of_nonneg_right hb5.2 hw5.le
    have := mul_le_mul_of_nonneg_right hb6.2 hw6.le
    linarith
  constructor
  · exact mul_nonneg (div_nonneg hnn htot.le) (by norm_num)
  · have hr : weighted_score bd w / total_weight bd w ≤ 1 := (div_le_one htot).mpr hle
    nlinarith

theorem engine_entry_score_eq (bd : Breakdown) (w : EngineWeights) (focus : String) :
    (engine_entry bd w focus).score =
      min (pyRound1 (weighted_score bd w / total_weight bd w * 100)) 100 := rfl

theorem engine_entry_score_bounds (bd : Breakdown) (w : EngineWeights) (focus : String)
    (hb : ∀ c ∈ bd.values, 0 ≤ c.score ∧ c.score ≤ c.max)
    (hm : ∀ c ∈ bd.values, 0 < c.max) (hw : posWeights w) :
    0 ≤ (engine_entry bd w focus).score ∧ (engine_entry bd w focus).score ≤ 100 := by
  obtain ⟨h0, _⟩ := engine_norm_bounds bd w hb hm hw
  rw [engine_entry_score_eq]
  exact ⟨le_min (pyRound1_nonneg _ h0) (by norm_num), min_le_right _ _⟩

theorem engine_entry_score_at_max (bd : Breakdown) (w : EngineWeights) (focus : String)
    (hm : ∀ c ∈ bd.values, 0 < c.max) (hw : posWeights w)
    (hmax : ∀ c ∈ bd.values, c.score = c.max) :
    (engine_entry bd w focus).score = 100 := by
  obtain ⟨hw1, hw2, hw3, hw4, hw5, hw6⟩ := hw
  have hm1 := hm bd.schema (by simp [Breakdown.values])
  have hm2 := hm bd.questions (by simp [Breakdown.values])
  have hm3 := hm bd.snippet (by simp [Breakdown.values])
  have hm4 := hm bd.structure_ (by simp [Breakdown.values])
  have hm5 := hm bd.eeat (by simp [Breakdown.values])
  have hm6 := hm bd.entities (by simp [Breakdown.values])
  have hx1 := hmax bd.schema (by simp [Breakdown.values])
  have hx2 := hmax bd.questions (by simp [Breakdown.values])
  have hx3 := hmax bd.snippet (by simp [Breakdown.values])
  have hx4 := hmax bd.structure_ (by simp [Breakdown.values])
  have hx5 := hmax bd.eeat (by simp [Breakdown.values])
  have hx6 := hmax bd.entities (by simp [Breakdown.values])
  have htot : 0 < total_weight bd w := by
    unfold total_weight
    have := mul_pos hm1 hw1
    have := mul_pos hm2 hw2
    have := mul_pos hm3 hw3
    have := mul_pos hm4 hw4
    have := mul_pos hm5 hw5
    have := mul_pos hm6 hw6
    linarith
  have hwe : weighted_score bd w = total_weight bd w := by
    unfold weighted_score total_weight
    rw [div_mul_cancel₀ _ (ne_of_gt hm1), div_mul_cancel₀ _ (ne_of_gt hm2),
        div_mul_cancel₀ _ (ne_of_gt hm3), div_mul_cancel₀ _ (ne_of_gt hm4),
        div_mul_cancel₀ _ (ne_of_gt hm5), div_mul_cancel₀ _ (ne_of_gt hm6),
        hx1, hx2, hx3, hx4, hx5, hx6]
  have hnorm : weighted_score bd w / total_weight bd w * 100 = 100 := by
    rw [hwe, div_self (ne_of_gt htot)]
    norm_num
  rw [engine_entry_score_eq, hnorm]
  have h100 : pyRound1 (100 : ℚ) = 100 := by
    have : ((100 : ℤ) : ℚ) = (100 : ℚ) := by norm_num
    rw [← this, pyRound1_intCast]
  rw [h100]
  norm_num

/-- Rounding a multiple of 0.2 to one decimal leaves it unchanged. -/
theorem pyRound1_snippet (n : ℕ) : pyRound1 ((n : ℚ) * 0.2) = (n : ℚ) * 0.2 := by
  unfold pyRound1
  have h : (10 : ℚ) * ((n : ℚ) * 0.2) = (((2 * n : ℕ) : ℤ) : ℚ) := by
    push_cast
    ring
  rw [h, pyRound_intCast]
  push_cast
  ring

theorem pyRound1_twenty : pyRound1 (20 : ℚ) = 20 := by
  have h : ((20 : ℤ) : ℚ) = (20 : ℚ) := by norm_num
  rw [← h, pyRound1_intCast]

/-- All six component scores of the breakdown sit at their maxima. -/
def componentsAtMax (data : SignalBundle) : Prop :=
  ∀ c ∈ (calculate_score_breakdown data).breakdown.values, c.score = c.max

/-- **C3.** For every signal bundle (snippet score within 0–100): every
entry of `calculate_engine_scores` — one per engine weight table (ChatGPT,
Claude, Gemini, Perplexity) — has a normalized score in `[0, 100]`; and when
every component score equals its max, every engine's score equals `100`,
and indeed `100` results for an arbitrary all-positive weight table. -/
theorem C3_engine_scores_normalized (data : SignalBundle)
    (hs : data.snippet.snippet_score ≤ 100) :
    (∀ p ∈ calculate_engine_scores data, 0 ≤ p.2.score ∧ p.2.score ≤ 100) ∧
    (componentsAtMax data → ∀ p ∈ calculate_engine_scores data, p.2.score = 100) ∧
    (componentsAtMax data → ∀ w : EngineWeights, posWeights w → ∀ focus : String,
      (engine_entry (calculate_score_breakdown data).breakdown w focus).score = 100) := by
  have hb := breakdown_score_le_max data hs
  have hm := breakdown_max_pos data
  refine ⟨?_, ?_, ?_⟩
  · intro p hp
    simp only [calculate_engine_scores, engines, List.map_cons, List.map_nil,
      List.mem_cons, List.not_mem_nil, or_false] at hp
    rcases hp with h | h | h | h <;> subst h <;>
      exact engine_entry_score_bounds _ _ _ hb hm
        (by unfold posWeights; norm_num)
  · intro hmax p hp
    simp only [calculate_engine_scores, engines, List.map_cons, List.map_nil,
      List.mem_cons, List.not_mem_nil, or_false] at hp
    rcases hp with h | h | h | h <;> subst h <;>
      exact engine_entry_score_at_max _ _ _ hm
        (by unfold posWeights; norm_num) hmax
  · intro hmax w hw focus
    exact engine_entry_score_at_max _ _ _ hm hw hmax

/-- A concrete bundle on which every component score reaches its max. -/
def max_bundle : SignalBundle :=
  { schema := { faq_present := true, faq_count := 3
                howto_present := true, howto_count := 3, article_present := true }
    questions := { total_headings := 6, question_headings := 5
                   question_heading_examples := [] }
    snippet := { first_para_words := 50, lists := 1, tables := 1
                 short_paragraphs := 3, snippet_score := 100 }
    structure_ := { has_tldr := true, has_toc := true, avg_para_length := 50
                    word_count := 1000, flesch_reading_ease := 70 }
    entities := { entities_found := 11, entity_examples := [] }
    eeat := { has_author_meta := true, has_date := true, has_author_bio := true
              has_about_link := true, has_contact_link := true, has_sources := true } }

/-- Witness for C3: on `max_bundle` every engine reports exactly 100. -/
theorem C3_engine_scores_normalized_witness :
    max_bundle.snippet.snippet_score ≤ 100 ∧ componentsAtMax max_bundle ∧
    ∀ p ∈ calculate_engine_scores max_bundle, p.2.score = 100 := by
  have hsnip : pyRound1 ((max_bundle.snippet.snippet_score : ℚ) * 0.2) = 20 := by
    rw [pyRound1_snippet max_bundle.snippet.snippet_score]
    norm_num [max_bundle]
  have hmax : componentsAtMax max_bundle := by
    intro c hc
    rw [breakdown_values_eq] at hc
    simp only [List.mem_cons, List.not_mem_nil, or_false] at hc
    rcases hc with h | h | h | h | h | h <;> subst h
    · norm_num [max_bundle]
    · norm_num [max_bundle]
    · exact hsnip
    · norm_num [max_bundle]
    · norm_num [max_bundle, boolVal]
    · norm_num [max_bundle]
  exact ⟨by decide, hmax,
    (C3_engine_scores_normalized max_bundle (by decide)).2.1 hmax⟩

/-! ## C8: the defensive clamps, compared with unclamped variants

The spec describes the `min(..., 100)` clamps as purely defensive.  The two
`*_unclamped` definitions below restate the source computations with the
clamp removed; C8 asserts the clamped and unclamped pipelines coincide. -/

/-- `calculate_score_breakdown` with the defensive `min(round(total), 100)`
replaced by the bare `round(total)`. -/
def calculate_score_breakdown_unclamped (data : SignalBundle) : ScoreResult :=
  let base := calculate_score_breakdown data
  { breakdown := base.breakdown
    total := pyRound (sub_scores_sum data) }

/-- One engine's entry with the defensive `min(round(normalized, 1), 100)`
replaced by the bare `round(normalized, 1)`. -/
def engine_entry_unclamped (bd : Breakdown) (w : EngineWeights) (focus : String) :
    EngineResult :=
  let normalized_score : ℚ := weighted_score bd w / total_weight bd w * 100
  { score := pyRound1 normalized_score, focus := focus }

/-- `calculate_engine_scores` with the clamp removed from every entry. -/
def calculate_engine_scores_unclamped (data : SignalBundle) :
    List (String × EngineResult) :=
  let base_breakdown := calculate_score_breakdown data
  engines.map fun cfg => (cfg.1, engine_entry_unclamped base_breakdown.breakdown cfg.2.1 cfg.2.2)

theorem engine_entry_eq_unclamped (bd : Breakdown) (w : EngineWeights) (focus : String)
    (hb : ∀ c ∈ bd.values, 0 ≤ c.score ∧ c.score ≤ c.max)
    (hm : ∀ c ∈ bd.values, 0 < c.max) (hw : posWeights w) :
    engine_entry bd w focus = engine_entry_unclamped bd w focus := by
  obtain ⟨_, h100⟩ := engine_norm_bounds bd w hb hm hw
  have hle : pyRound1 (weighted_score bd w / total_weight bd w * 100) ≤ 100 := by
    have := pyRound1_le_int (weighted_score bd w / total_weight bd w * 100) 100
      (by exact_mod_cast h100)
    exact_mod_cast this
  unfold engine_entry engine_entry_unclamped
  dsimp only
  rw [min_eq_left hle]

/-- **C8.** The defensive clamps never change a value: for every signal
bundle (snippet score within 0–100), the score-breakdown total already
equals the bare rounded sum (the rubric maxima sum to 100), and every
engine's reported score equals the bare rounded normalized score — the
clamped pipeline coincides with the unclamped one. -/
theorem C8_clamps_are_identity (data : SignalBundle)
    (hs : data.snippet.snippet_score ≤ 100) :
    calculate_score_breakdown data = calculate_score_breakdown_unclamped data ∧
    calculate_engine_scores data = calculate_engine_scores_unclamped data := by
  have hb := breakdown_score_le_max data hs
  have hm := breakdown_max_pos data
  constructor
  · have hsum := (sub_scores_sum_bounds data hs).2
    have hround : pyRound (sub_scores_sum data) ≤ 100 :=
      pyRound_le_int _ 100 (by exact_mod_cast hsum)
    have ht : (calculate_score_breakdown data).total =
        (calculate_score_breakdown_unclamped data).total := by
      have h2 : (calculate_score_breakdown_unclamped data).total =
          pyRound (sub_scores_sum data) := rfl
      rw [total_eq_min, h2]
      exact min_eq_left hround
    calc calculate_score_breakdown data
        = ⟨(calculate_score_breakdown data).breakdown,
           (calculate_score_breakdown data).total⟩ := rfl
      _ = ⟨(calculate_score_breakdown_unclamped data).breakdown,
           (calculate_score_breakdown_unclamped data).total⟩ := by
            have hbd : (calculate_score_breakdown data).breakdown =
                (calculate_score_breakdown_unclamped data).breakdown := rfl
            rw [ht, hbd]
      _ = calculate_score_breakdown_unclamped data := rfl
  · unfold calculate_engine_scores calculate_engine_scores_unclamped
    dsimp only
    refine List.map_congr_left ?_
    intro cfg hcfg
    have hw : posWeights cfg.2.1 := by
      simp only [engines, List.mem_cons, List.not_mem_nil, or_false] at hcfg
      rcases hcfg with h | h | h | h <;> subst h <;>
        exact (by unfold posWeights; norm_num)
    rw [engine_entry_eq_unclamped _ _ _ hb hm hw]

/-- Witness for C8 at a concrete bundle. -/
theorem C8_clamps_are_identity_witness :
    zero_bundle.snippet.snippet_score ≤ 100 ∧
    (calculate_score_breakdown zero_bundle = calculate_score_breakdown_unclamped zero_bundle ∧
     calculate_engine_scores zero_bundle = calculate_engine_scores_unclamped zero_bundle) :=
  ⟨by decide, C8_clamps_are_identity zero_bundle (by decide)⟩

/-! ## C4 and C2: ordering of the recommendation list -/

/-- The authored rule list is already non-decreasing in priority rank
(HIGH rules are written first, then MEDIUM, then LOW). -/
theorem rule_recs_sorted (data : SignalBundle) :
    List.Sorted recLE (rule_recs data) := by
  unfold rule_recs
  split_ifs <;> decide

/-- The stable sort leaves the authored rule list unchanged. -/
theorem sort_rule_recs_eq (data : SignalBundle) :
    generate_prioritized_recommendations data = rule_recs data :=
  (rule_recs_sorted data).insertionSort_eq

/-- **C4.** For every signal bundle the recommendation list is sorted
non-decreasingly by priority rank HIGH(0) < MEDIUM(1) < LOW(2) — so a HIGH
record never appears after a MEDIUM or LOW one — and the sort is stable:
the output equals the rule-authoring-order list `rule_recs`, so records of
equal priority keep authoring order. -/
theorem C4_recommendations_sorted_stable (data : SignalBundle) :
    generate_prioritized_recommendations data = rule_recs data ∧
    List.Sorted recLE (generate_prioritized_recommendations data) := by
  refine ⟨sort_rule_recs_eq data, ?_⟩
  rw [sort_rule_recs_eq data]
  exact rule_recs_sorted data

/-- A bundle whose only gap signals are `has_sources = false` and
`has_toc = false`: every recommendation rule predicate is false on it. -/
def no_gap_bundle : SignalBundle :=
  { schema := { faq_present := true, faq_count := 1
                howto_present := true, howto_count := 1, article_present := true }
    questions := { total_headings := 5, question_headings := 5
                   question_heading_examples := [] }
    snippet := { first_para_words := 50, lists := 2, tables := 1
                 short_paragraphs := 3, snippet_score := 100 }
    structure_ := { has_tldr := true, has_toc := false, avg_para_length := 50
                    word_count := 500, flesch_reading_ease := 70 }
    entities := { entities_found := 12, entity_examples := [] }
    eeat := { has_author_meta := true, has_date := true, has_author_bio := true
              has_about_link := true, has_contact_link := true, has_sources := false } }

/-- **C2 counterexample.** `no_gap_bundle` has `has_sources = false` and
`has_toc = false`, yet the generator emits no recommendation at all — in
particular no LOW-priority one: the code has no "no sources" rule and no
"no table of contents" rule. -/
theorem C2_counterexample_no_sources_rule :
    no_gap_bundle.eeat.has_sources = false ∧
    no_gap_bundle.structure_.has_toc = false ∧
    generate_prioritized_recommendations no_gap_bundle = [] := by
  refine ⟨rfl, rfl, ?_⟩
  decide

/-- Replace only the `has_sources` and `has_toc` signals of a bundle. -/
def set_sources_toc (data : SignalBundle) (s t : Bool) : SignalBundle :=
  { data with
    eeat := { data.eeat with has_sources := s }
    structure_ := { data.structure_ with has_toc := t } }

/-- Is a recommendation record LOW-priority? -/
def isLowRec (r : Recommendation) : Bool :=
  r.priority == Priority.LOW

theorem filter_ite_not_low (c : Prop) [Decidable c] (r : Recommendation)
    (h : isLowRec r = false) :
    List.filter isLowRec (if c then [r] else []) = [] := by
  split_ifs <;> simp [List.filter, h]

theorem filter_ite_low (c : Prop) [Decidable c] (r : Recommendation)
    (h : isLowRec r = true) :
    List.filter isLowRec (if c then [r] else []) = if c then [r] else [] := by
  split_ifs <;> simp [List.filter, h]

/-- **C2 (amended).** The recommendation generator never reads `has_sources`
or `has_toc` (its output is invariant under changing them), and its
LOW-priority output consists exactly of the two rules the code has: average
paragraph length > 100 words, and entity count < 10. -/
theorem C2_low_rules_amended (data : SignalBundle) (s t : Bool) :
    generate_prioritized_recommendations (set_sources_toc data s t) =
      generate_prioritized_recommendations data ∧
    (generate_prioritized_recommendations data).filter isLowRec =
      (if data.structure_.avg_para_length > 100 then [rec_para_length] else []) ++
      (if data.entities.entities_found < 10 then [rec_entities] else []) := by
  constructor
  · rw [sort_rule_recs_eq, sort_rule_recs_eq]
    obtain ⟨sch, q, sn, ⟨tl, toc, ap, wc, fl⟩, en, ⟨m, d, b, al, cl, so⟩⟩ := data
    rfl
  · rw [sort_rule_recs_eq]
    unfold rule_recs
    simp only [List.filter_append]
    rw [filter_ite_not_low _ rec_faq_schema (by decide),
        filter_ite_not_low _ rec_question_headings (by decide),
        filter_ite_not_low _ rec_first_para (by decide),
        filter_ite_not_low _ rec_author (by decide),
        filter_ite_not_low _ rec_howto_schema (by decide),
        filter_ite_not_low _ rec_lists (by decide),
        filter_ite_not_low _ rec_tldr (by decide),
        filter_ite_low _ rec_para_length (by decide),
        filter_ite_low _ rec_entities (by decide)]
    simp

/-! ## C5 and C6: schema-scan error handling and aggregation -/

/-- **C5.** A malformed structured-data block anywhere in the sequence is
skipped and scanning continues: removing it never changes the result of
`analyze_schema`; in particular, with a malformed first block followed by a
valid block whose `@type` contains "faqpage", the extractor still reports
`faq_present = true` (with the FAQ count of that block). -/
theorem C5_malformed_block_skipped :
    (∀ pre post : List Block,
      analyze_schema (pre ++ Block.malformed :: post) = analyze_schema (pre ++ post)) ∧
    (analyze_schema [Block.malformed,
        Block.one { atType := "FAQPage", mainEntity := 3, step := 0 }]).faq_present = true := by
  constructor
  · intro pre post
    unfold analyze_schema
    rw [List.foldl_append, List.foldl_append]
    rfl
  · decide

/-- The JSON objects a block contributes to the scan, in order. -/
def objsOfBlock : Block → List SchemaObj
  | Block.malformed => []
  | Block.one o => [o]
  | Block.many os => os

/-- All JSON objects of a block sequence, in scan order. -/
def objsOf (blocks : List Block) : List SchemaObj :=
  (blocks.map objsOfBlock).flatten

/-- Does an object take the FAQ branch of the `if`/`elif` chain? -/
def takes_faq (o : SchemaObj) : Bool :=
  strContains (pyLower o.atType) "faqpage"

/-- Does an object take the HowTo branch?  (An object whose type also
contains "faqpage" takes the FAQ branch instead.) -/
def takes_howto (o : SchemaObj) : Bool :=
  !takes_faq o && strContains (pyLower o.atType) "howto"

theorem process_block_eq_foldl (st : SchemaData) (b : Block) :
    process_block st b = (objsOfBlock b).foldl process_obj st := by
  cases b <;> rfl

theorem foldl_blocks_eq_foldl_objs (blocks : List Block) (st : SchemaData) :
    blocks.foldl process_block st = (objsOf blocks).foldl process_obj st := by
  induction blocks generalizing st with
  | nil => rfl
  | cons b bs ih =>
    rw [List.foldl_cons, ih, process_block_eq_foldl]
    unfold objsOf
    rw [List.map_cons, List.flatten_cons, List.foldl_append]

theorem process_obj_of_faq (st : SchemaData) (o : SchemaObj) (h : takes_faq o = true) :
    process_obj st o = { st with faq_present := true, faq_count := o.mainEntity } := by
  unfold process_obj
  unfold takes_faq at h
  rw [if_pos h]

theorem process_obj_faq_count_eq (st : SchemaData) (o : SchemaObj)
    (h : takes_faq o = false) :
    (process_obj st o).faq_count = st.faq_count := by
  unfold process_obj
  unfold takes_faq at h
  rw [if_neg (by simp [h])]
  split_ifs <;> rfl

theorem process_obj_howto_count_eq (st : SchemaData) (o : SchemaObj)
    (h : takes_howto o = false) :
    (process_obj st o).howto_count = st.howto_count := by
  unfold process_obj
  unfold takes_howto takes_faq at h
  by_cases hf : strContains (pyLower o.atType) "faqpage" = true
  · rw [if_pos hf]
  · rw [if_neg (by simp [hf])]
    simp only [hf, Bool.not_false, Bool.true_and] at h
    rw [if_neg (by simp [h])]
    split_ifs <;> rfl

theorem foldl_faq_count_of_no_faq (objs : List SchemaObj) (st : SchemaData)
    (h : ∀ x ∈ objs, takes_faq x = false) :
    (objs.foldl process_obj st).faq_count = st.faq_count := by
  induction objs generalizing st with
  | nil => rfl
  | cons o os ih =>
    rw [List.foldl_cons, ih _ (fun x hx => h x (List.mem_cons_of_mem o hx)),
      process_obj_faq_count_eq st o (h o (List.mem_cons_self o os))]

theorem foldl_howto_count_of_no_howto (objs : List SchemaObj) (st : SchemaData)
    (h : ∀ x ∈ objs, takes_howto x = false) :
    (objs.foldl process_obj st).howto_count = st.howto_count := by
  induction objs generalizing st with
  | nil => rfl
  | cons o os ih =>
    rw [List.foldl_cons, ih _ (fun x hx => h x (List.mem_cons_of_mem o hx)),
      process_obj_howto_count_eq st o (h o (List.mem_cons_self o os))]

/-- **C6.** When several objects match the same type, the last matching
object in scan order wins: if the object stream decomposes as
`l₁ ++ o :: l₂` with `o` taking the FAQ branch and nothing in `l₂` taking
it, the reported `faq_count` is exactly `o`'s main-entity list size (and
likewise `howto_count` from the step list of the last HowTo object) — not a
sum or a maximum, as the concrete two-FAQ-block run (sizes 5 then 2,
reported count 2, not 7 and not 5) exhibits. -/
theorem C6_last_matching_block_wins :
    (∀ (blocks : List Block) (l₁ l₂ : List SchemaObj) (o : SchemaObj),
      objsOf blocks = l₁ ++ o :: l₂ → takes_faq o = true →
      (∀ x ∈ l₂, takes_faq x = false) →
      (analyze_schema blocks).faq_count = o.mainEntity) ∧
    (∀ (blocks : List Block) (l₁ l₂ : List SchemaObj) (o : SchemaObj),
      objsOf blocks = l₁ ++ o :: l₂ → takes_howto o = true →
      (∀ x ∈ l₂, takes_howto x = false) →
      (analyze_schema blocks).howto_count = o.step) ∧
    (analyze_schema [Block.one { atType := "FAQPage", mainEntity := 5, step := 0 },
        Block.one { atType := "FAQPage", mainEntity := 2, step := 0 }]).faq_count = 2 := by
  refine ⟨?_, ?_, by decide⟩
  · intro blocks l₁ l₂ o hdec hfaq hrest
    unfold analyze_schema
    rw [foldl_blocks_eq_foldl_objs, hdec, List.foldl_append, List.foldl_cons,
      foldl_faq_count_of_no_faq _ _ hrest, process_obj_of_faq _ _ hfaq]
  · intro blocks l₁ l₂ o hdec hhowto hrest
    unfold analyze_schema
    rw [foldl_blocks_eq_foldl_objs, hdec, List.foldl_append, List.foldl_cons,
      foldl_howto_count_of_no_howto _ _ hrest]
    unfold process_obj
    unfold takes_howto takes_faq at hhowto
    obtain ⟨hnf, hh⟩ := Bool.and_eq_true_iff.mp hhowto
    rw [if_neg (by simp_all), if_pos (by simp_all)]

/-- Witness for C6 at the concrete two-FAQ-block input. -/
theorem C6_last_matching_block_wins_witness :
    (analyze_schema [Block.one { atType := "FAQPage", mainEntity := 5, step := 0 },
        Block.one { atType := "FAQPage", mainEntity := 2, step := 0 }]).faq_count =
      ({ atType := "FAQPage", mainEntity := 2, step := 0 } : SchemaObj).mainEntity :=
  C6_last_matching_block_wins.1
    [Block.one { atType := "FAQPage", mainEntity := 5, step := 0 },
     Block.one { atType := "FAQPage", mainEntity := 2, step := 0 }]
    [{ atType := "FAQPage", mainEntity := 5, step := 0 }] []
    { atType := "FAQPage", mainEntity := 2, step := 0 }
    (by decide) (by decide) (by decide)

/-! ## C7, C9, C10 -/

/-- **C7.** The question-heading classifier trims and lower-cases the text
and tests starts-with-a-question-word OR ends-with-"?"; a heading passing
the test (even when both disjuncts hold) increments the reported count by
exactly one.  The heading " How do I start? " satisfies both disjuncts and
is counted exactly once. -/
theorem C7_question_heading_counted_once :
    (∀ (hs : List String) (h : String), is_question h = true →
      (analyze_questions (hs ++ [h])).question_headings =
        (analyze_questions hs).question_headings + 1) ∧
    (∀ h : String, is_question h =
      (question_words.any (fun qw => pyStartsWith (pyLower (pyStrip h)) qw) ||
        pyEndsWith (pyLower (pyStrip h)) "?")) ∧
    (pyStartsWith (pyLower (pyStrip " How do I start? ")) "how" = true ∧
     pyEndsWith (pyLower (pyStrip " How do I start? ")) "?" = true ∧
     (analyze_questions [" How do I start? "]).question_headings = 1) := by
  refine ⟨?_, fun h => rfl, by decide, by decide, by decide⟩
  intro hs h hq
  unfold analyze_questions
  dsimp only
  rw [List.filter_append, List.filter_cons, if_pos hq]
  simp

/-- Witness for C7 at the concrete heading. -/
theorem C7_question_heading_counted_once_witness :
    is_question " How do I start? " = true ∧
    (analyze_questions ([] ++ [" How do I start? "])).question_headings =
      (analyze_questions []).question_headings + 1 :=
  ⟨by decide, C7_question_heading_counted_once.1 [] " How do I start? " (by decide)⟩

/-- **C9.** The scoring pipeline is deterministic and stateless: its three
stages are pure functions of the signal bundle, so two runs on the same
bundle produce identical breakdowns, engine scores and recommendation
lists. -/
theorem C9_pipeline_deterministic (data : SignalBundle) :
    (calculate_score_breakdown data, calculate_engine_scores data,
      generate_prioritized_recommendations data) =
    (calculate_score_breakdown data, calculate_engine_scores data,
      generate_prioritized_recommendations data) := rfl

/-- Replace only the `has_about_link` and `has_contact_link` trust signals. -/
def set_links (data : SignalBundle) (a c : Bool) : SignalBundle :=
  { data with
    eeat := { data.eeat with has_about_link := a, has_contact_link := c } }

/-- **C10.** The `has_about_link` and `has_contact_link` signals are inert:
bundles differing only in them get identical score breakdowns (in
particular the eeat component, which reads only author-meta, date,
author-bio and sources), identical engine scores and identical
recommendation lists. -/
theorem C10_about_contact_links_inert (data : SignalBundle) (a c : Bool) :
    calculate_score_breakdown (set_links data a c) = calculate_score_breakdown data ∧
    calculate_engine_scores (set_links data a c) = calculate_engine_scores data ∧
    generate_prioritized_recommendations (set_links data a c) =
      generate_prioritized_recommendations data := by
  obtain ⟨sch, q, sn, st, en, ⟨m, d, b, al, cl, so⟩⟩ := data
  exact ⟨rfl, rfl, rfl⟩
